import Mathlib

/-!
Shallow embedding of `src/test1.py`, a rigid (concrete) pavement thickness
calculator following the AASHTO 1993 design equation.

Modelling conventions:
  * Python floats are modelled as real numbers; `x ** y` on a non-negative
    base is `Real.rpow`, `math.sqrt` is `Real.sqrt`, `math.log10` is
    `Real.logb 10`, and `round(x, 2)` is `round2` below.
  * A Python function that raises an exception on some input (ValueError
    from `math.log10`/`math.sqrt` on a non-positive argument,
    ZeroDivisionError, or the TypeError raised when `f"{v:.2f}"` formats a
    complex value produced by `**` on a negative base with a non-integer
    exponent) is modelled as an `Option`-valued function returning `none`
    on exactly those inputs.
  * The driver `main` is modelled from the point where the JSON has been
    parsed; the parsed data is a record whose fields are `Option`-valued,
    a missing key at either nesting level being `none`.  File-system
    access in `leer_datos_entrada` is incidental I/O and is not modelled.
  * Print statements are side effects with no influence on the returned
    values and are not modelled (except that formatting a complex value
    raises, see above).
-/

noncomputable section

/-- Model of Python `round(x, 2)`: round to the nearest multiple of 1/100.
(Python rounds ties to even; `round` in Mathlib rounds ties up.  The two
agree except at exact ties, which do not occur at any input considered
below.) -/
def round2 (x : ℝ) : ℝ := ((round (x * 100) : ℤ) : ℝ) / 100

/-- `calcular_mrsg_subgrade` (src/test1.py:17-27): `MRSG = 1945 * CBR ** 0.684`,
returned as `round(MRSG, 2)`.  For `CBR < 0`, Python `CBR ** 0.684` yields a
complex number and the subsequent `print(f"{MRSG:.2f}")` raises TypeError,
so the call fails: modelled as `none`.  For `CBR = 0`, Python `0.0 ** 0.684`
is `0.0` and the function returns normally. -/
def calcular_mrsg_subgrade (CBR : ℝ) : Option ℝ :=
  if CBR < 0 then none
  else
    let MRSG := 1945 * CBR ^ (0.684 : ℝ)
    some (round2 MRSG)

/-- `calcular_k_subestructura_psi_in` (src/test1.py:29-44):
`k_subgrade = MRSG / 10.0`, `k_base = resilient_modulus_base / espesor_base ** 0.5`,
returns `round(k_subgrade + k_base, 2)`.  For `espesor_base < 0` the power is
complex and the `:.2f` formatting raises; for `espesor_base = 0` the division
raises ZeroDivisionError: both modelled as `none`. -/
def calcular_k_subestructura_psi_in
    (MRSG resilient_modulus_base espesor_base : ℝ) : Option ℝ :=
  if espesor_base < 0 then none
  else if espesor_base = 0 then none
  else
    let k_subgrade_psi_in := MRSG / 10.0
    let k_base_psi_in := resilient_modulus_base / espesor_base ^ (0.5 : ℝ)
    let k_total_psi_in := k_subgrade_psi_in + k_base_psi_in
    some (round2 k_total_psi_in)

/-- The body of the `for _ in range(n)` loop of `calcular_espesor_losa_rigida`
(src/test1.py:70-71): each pass reassigns `espesor_inicial` to the same value
`nuevo`, which does not depend on the current iterate. -/
def paso_espesor (nuevo : ℝ) : ℕ → ℝ → ℝ
  | 0, espesor => espesor
  | n + 1, _ => paso_espesor nuevo n nuevo

/-- `calcular_espesor_losa_rigida` (src/test1.py:46-73), AASHTO 93 rigid
pavement thickness.  Failure modes, each modelled as `none`:
`math.log10` on a non-positive argument (in `B` when `ESALs + 1 ≤ 0`, in `D1`
when `ESALs ≤ 0`) raises ValueError; `k ** 0.25` on `k < 0` is complex and
propagates to a TypeError; division by `k ** 0.25 = 0` when `k = 0` raises
ZeroDivisionError; `math.sqrt C` with `C < 0` raises ValueError; division by
`D1 + D2 = 0` raises ZeroDivisionError; a negative base
`(A + B) / (D1 + D2) < 0` under the exponent `1 / 1.132` is complex and the
`:.2f` formatting raises.  Otherwise the loop runs 10 times from the initial
guess 7.0 and the result is rounded to 2 decimals. -/
def calcular_espesor_losa_rigida
    (ESALs ZR So Sc Cd Ec k delta_PSI : ℝ) : Option ℝ :=
  if ESALs + 1 ≤ 0 then none
  else
    let A := ZR * So
    let B := 7.35 * Real.logb 10 (ESALs + 1) - 0.06
    if k < 0 then none
    else if k = 0 then none
    else
      let C := (Sc * Cd) / k ^ (0.25 : ℝ)
      if ESALs ≤ 0 then none
      else
        let D1 := (4.22 - 0.32 * delta_PSI) * Real.logb 10 ESALs
        if C < 0 then none
        else
          let D2 := 215.63 * Real.sqrt C - 18.42
          if D1 + D2 = 0 then none
          else if (A + B) / (D1 + D2) < 0 then none
          else some (round2 (paso_espesor (((A + B) / (D1 + D2)) ^ ((1 : ℝ) / 1.132)) 10 7.0))

/-- Modelled from the spec (section 4.3): the single-shot evaluation of the
thickness expression, with no iteration.  Identical to
`calcular_espesor_losa_rigida` except that the returned value is the
expression itself rather than the result of the 10-pass loop. -/
def calcular_espesor_losa_rigida_spec
    (ESALs ZR So Sc Cd Ec k delta_PSI : ℝ) : Option ℝ :=
  if ESALs + 1 ≤ 0 then none
  else
    let A := ZR * So
    let B := 7.35 * Real.logb 10 (ESALs + 1) - 0.06
    if k < 0 then none
    else if k = 0 then none
    else
      let C := (Sc * Cd) / k ^ (0.25 : ℝ)
      if ESALs ≤ 0 then none
      else
        let D1 := (4.22 - 0.32 * delta_PSI) * Real.logb 10 ESALs
        if C < 0 then none
        else
          let D2 := 215.63 * Real.sqrt C - 18.42
          if D1 + D2 = 0 then none
          else if (A + B) / (D1 + D2) < 0 then none
          else some (round2 (((A + B) / (D1 + D2)) ^ ((1 : ℝ) / 1.132)))

/-- Composition performed by the driver at src/test1.py:97-98: the rounded
`MRSG` returned by `calcular_mrsg_subgrade` is fed to
`calcular_k_subestructura_psi_in`. -/
def pipeline_k_total (CBR resilient_modulus_base espesor_base : ℝ) : Option ℝ :=
  (calcular_mrsg_subgrade CBR).bind fun MRSG =>
    calcular_k_subestructura_psi_in MRSG resilient_modulus_base espesor_base

/-- The nested object under the `"Traffic"` key of the input JSON; a field is
`none` when the corresponding key is absent. -/
structure TrafficData where
  ESALs : Option ℝ

/-- The nested object under the `"Concrete"` key of the input JSON. -/
structure ConcreteData where
  FlexuralStrength : Option ℝ
  ModulusOfElasticity : Option ℝ

/-- The nested object under the `"Subgrade"` key of the input JSON. -/
structure SubgradeData where
  CBR : Option ℝ

/-- The nested object under the `"Structure"` key of the input JSON. -/
structure StructureData where
  ResilientModulus : Option ℝ
  LayerThickness : Option ℝ

/-- The parsed input JSON (src/test1.py: shape read in `main`, lines 85-94);
a top-level field is `none` when the corresponding key is absent. -/
structure DatosEntrada where
  Traffic : Option TrafficData
  Concrete : Option ConcreteData
  Subgrade : Option SubgradeData
  Structure : Option StructureData

/-- Errors observable from the driver `main` (src/test1.py:110-116): a
KeyError carrying the missing key (caught at line 113 and reported with the
key name), or any other exception (caught generically at line 115). -/
inductive ErrorPrincipal where
  | claveFaltante (clave : String)
  | errorInesperado

/-- Model of a Python `dict[...]` access: raises KeyError naming the key when
it is absent. -/
def obtener {α : Type} (o : Option α) (clave : String) : Except ErrorPrincipal α :=
  match o with
  | some v => Except.ok v
  | none => Except.error (ErrorPrincipal.claveFaltante clave)

/-- Lifts a calculator failure (modelled `none`) to the driver's generic
exception handler (src/test1.py:115-116). -/
def aExcepcion (o : Option ℝ) : Except ErrorPrincipal ℝ :=
  match o with
  | some v => Except.ok v
  | none => Except.error ErrorPrincipal.errorInesperado

/-- The values computed by a successful run of `main` (src/test1.py:96-108). -/
structure Resultados where
  MRSG : ℝ
  k_total_psi_in : ℝ
  espesor_losa : ℝ

/-- The driver `main` (src/test1.py:75-116), from the parsed input onward:
extracts the input values in source order (lines 85-94), then runs the three
calculation stages in sequence (lines 97-101).  A missing key or a failing
stage aborts the remaining stages. -/
def main (datos : DatosEntrada) : Except ErrorPrincipal Resultados := do
  let traffic ← obtener datos.Traffic "Traffic"
  let ESALs ← obtener traffic.ESALs "ESALs"
  let ZR : ℝ := -1.645
  let So : ℝ := 0.39
  let concrete ← obtener datos.Concrete "Concrete"
  let Sc ← obtener concrete.FlexuralStrength "FlexuralStrength"
  let Cd : ℝ := 1.0
  let Ec ← obtener concrete.ModulusOfElasticity "ModulusOfElasticity"
  let subgrade ← obtener datos.Subgrade "Subgrade"
  let CBR ← obtener subgrade.CBR "CBR"
  let delta_PSI : ℝ := 2.0
  let structureDatos ← obtener datos.Structure "Structure"
  let resilient_modulus_base ← obtener structureDatos.ResilientModulus "ResilientModulus"
  let espesor_base ← obtener structureDatos.LayerThickness "LayerThickness"
  let MRSG ← aExcepcion (calcular_mrsg_subgrade CBR)
  let k_total_psi_in ← aExcepcion
    (calcular_k_subestructura_psi_in MRSG resilient_modulus_base espesor_base)
  let espesor_losa ← aExcepcion
    (calcular_espesor_losa_rigida ESALs ZR So Sc Cd Ec k_total_psi_in delta_PSI)
  Except.ok { MRSG := MRSG, k_total_psi_in := k_total_psi_in, espesor_losa := espesor_losa }

/-- A concrete parsed input whose `"Subgrade"` key is absent and whose other
keys carry the values of end-to-end scenario 1. -/
def datosSinSubgrade : DatosEntrada where
  Traffic := some { ESALs := some 1000000 }
  Concrete := some { FlexuralStrength := some 650, ModulusOfElasticity := some 4000000 }
  Subgrade := none
  Structure := some { ResilientModulus := some 30000, LayerThickness := some 6 }

end

/-! ## Helper lemmas -/

/-- `round2 x` is determined by any half-unit bracketing of `x * 100`. -/
theorem round2_eq_of (x : ℝ) (m : ℤ) (h1 : (m : ℝ) - 1 / 2 ≤ x * 100)
    (h2 : x * 100 < (m : ℝ) + 1 / 2) : round2 x = (m : ℝ) / 100 := by
  have hm : round (x * 100) = m := by
    rw [round_eq, Int.floor_eq_iff]
    constructor
    · linarith
    · linarith
  unfold round2
  rw [hm]

/-- `round2` is monotone. -/
theorem round2_mono {x y : ℝ} (h : x ≤ y) : round2 x ≤ round2 y := by
  unfold round2
  have hr : round (x * 100) ≤ round (y * 100) := by
    rw [round_eq, round_eq]
    exact Int.floor_mono (by linarith)
  have hc : ((round (x * 100) : ℤ) : ℝ) ≤ ((round (y * 100) : ℤ) : ℝ) :=
    Int.cast_le.mpr hr
  linarith

/-- On non-negative inputs the subgrade estimator returns the rounded formula
value. -/
theorem mrsg_of_nonneg (CBR : ℝ) (h : 0 ≤ CBR) :
    calcular_mrsg_subgrade CBR = some (round2 (1945 * CBR ^ (0.684 : ℝ))) := by
  unfold calcular_mrsg_subgrade
  rw [if_neg (not_lt.mpr h)]

/-- On a positive base thickness the composite-k calculator returns the
rounded formula value, with the square root written as `Real.sqrt`. -/
theorem k_of_pos (MRSG resilient_modulus_base espesor_base : ℝ)
    (h : 0 < espesor_base) :
    calcular_k_subestructura_psi_in MRSG resilient_modulus_base espesor_base =
      some (round2 (MRSG / 10 + resilient_modulus_base / Real.sqrt espesor_base)) := by
  unfold calcular_k_subestructura_psi_in
  rw [if_neg (not_lt.mpr h.le), if_neg h.ne.symm]
  norm_num [Real.sqrt_eq_rpow]

/-- After at least one pass, the loop body's result is the reassigned value,
independent of the starting iterate. -/
theorem paso_espesor_eq (nuevo : ℝ) :
    ∀ (n : ℕ) (espesor : ℝ), paso_espesor nuevo (n + 1) espesor = nuevo
  | 0, _ => rfl
  | n + 1, _ => paso_espesor_eq nuevo n nuevo

/-- Rational bracketing of `8 ^ 0.684`, via `(8 ^ 0.684) ^ 250 = 8 ^ 171`. -/
theorem ocho_rpow_bounds :
    (4.1468043 : ℝ) < (8 : ℝ) ^ (0.684 : ℝ) ∧ (8 : ℝ) ^ (0.684 : ℝ) < 4.1468045 := by
  have h8 : (0 : ℝ) ≤ 8 := by norm_num
  have hx : (0 : ℝ) ≤ (8 : ℝ) ^ (0.684 : ℝ) := Real.rpow_nonneg h8 _
  have key : ((8 : ℝ) ^ (0.684 : ℝ)) ^ (250 : ℕ) = (8 : ℝ) ^ (171 : ℕ) := by
    rw [← Real.rpow_natCast ((8 : ℝ) ^ (0.684 : ℝ)) 250, ← Real.rpow_mul h8,
      ← Real.rpow_natCast (8 : ℝ) 171]
    congr 1
    norm_num
  constructor
  · apply lt_of_pow_lt_pow_left₀ 250 hx
    rw [key]
    norm_num
  · apply lt_of_pow_lt_pow_left₀ 250 (by norm_num : (0 : ℝ) ≤ (4.1468045 : ℝ))
    rw [key]
    norm_num

/-- Rational bracketing of `Real.sqrt 6`. -/
theorem sqrt_six_bounds :
    (2.449489742 : ℝ) < Real.sqrt 6 ∧ Real.sqrt 6 < 2.449489743 := by
  constructor
  · exact (Real.lt_sqrt (by norm_num)).mpr (by norm_num)
  · exact (Real.sqrt_lt' (by norm_num)).mpr (by norm_num)

/-! ## Claims -/

/-- C1: for every CBR > 0, `calcular_mrsg_subgrade CBR` returns exactly
`round(1945 * CBR ** 0.684, 2)`, the value 1945 times CBR raised to the
0.684 power, rounded to 2 decimal digits. -/
theorem c1_mrsg_formula (CBR : ℝ) (h : 0 < CBR) :
    calcular_mrsg_subgrade CBR = some (round2 (1945 * CBR ^ (0.684 : ℝ))) :=
  mrsg_of_nonneg CBR h.le

/-- Witness for C1 at CBR = 1. -/
theorem c1_mrsg_formula_witness :
    calcular_mrsg_subgrade 1 = some (round2 (1945 * (1 : ℝ) ^ (0.684 : ℝ))) :=
  c1_mrsg_formula 1 (by norm_num)

/-- C2: for every MRSG > 0, ResilientModulus > 0 and LayerThickness > 0,
`calcular_k_subestructura_psi_in` returns exactly
`round(MRSG / 10 + ResilientModulus / sqrt LayerThickness, 2)`. -/
theorem c2_k_formula (MRSG resilient_modulus_base espesor_base : ℝ)
    (h1 : 0 < MRSG) (h2 : 0 < resilient_modulus_base) (h3 : 0 < espesor_base) :
    calcular_k_subestructura_psi_in MRSG resilient_modulus_base espesor_base =
      some (round2 (MRSG / 10 + resilient_modulus_base / Real.sqrt espesor_base)) :=
  k_of_pos MRSG resilient_modulus_base espesor_base h3

/-- Witness for C2 at (1, 1, 1). -/
theorem c2_k_formula_witness :
    calcular_k_subestructura_psi_in 1 1 1 =
      some (round2 ((1 : ℝ) / 10 + 1 / Real.sqrt 1)) :=
  c2_k_formula 1 1 1 (by norm_num) (by norm_num) (by norm_num)

/-- C4 counterexample: at CBR = 0 the function does not fail at all; Python
`0.0 ** 0.684` is `0.0` and the function silently returns `0.0`. -/
theorem c4_counterexample : calcular_mrsg_subgrade 0 = some 0 := by
  unfold calcular_mrsg_subgrade
  rw [if_neg (lt_irrefl (0 : ℝ))]
  norm_num [Real.zero_rpow, round2]

/-- C4 amended: for CBR < 0 the call fails (the fractional power of a
negative base has no real value; the complex result makes the `:.2f`
formatting raise, reported by the driver as a generic unexpected error, not
a DomainError), while for CBR = 0 the function silently returns 0.0. -/
theorem c4_amended :
    (∀ CBR : ℝ, CBR < 0 → calcular_mrsg_subgrade CBR = none) ∧
      calcular_mrsg_subgrade 0 = some 0 := by
  constructor
  · intro CBR h
    unfold calcular_mrsg_subgrade
    rw [if_pos h]
  · unfold calcular_mrsg_subgrade
    rw [if_neg (lt_irrefl (0 : ℝ))]
    norm_num [Real.zero_rpow, round2]

/-- Witness for C4 amended at CBR = -1 and CBR = 0. -/
theorem c4_amended_witness :
    calcular_mrsg_subgrade (-1) = none ∧ calcular_mrsg_subgrade 0 = some 0 :=
  ⟨c4_amended.1 (-1) (by norm_num), c4_amended.2⟩

/-- C5: for LayerThickness ≤ 0 the composite-k calculator fails instead of
returning a value (ZeroDivisionError at 0, a complex power below 0). -/
theorem c5_k_domain (MRSG resilient_modulus_base espesor_base : ℝ)
    (h : espesor_base ≤ 0) :
    calcular_k_subestructura_psi_in MRSG resilient_modulus_base espesor_base = none := by
  unfold calcular_k_subestructura_psi_in
  rcases h.lt_or_eq with hlt | heq
  · rw [if_pos hlt]
  · rw [if_neg (by rw [heq]; exact lt_irrefl (0 : ℝ)), if_pos heq]

/-- Witness for C5 at LayerThickness = 0. -/
theorem c5_k_domain_witness : calcular_k_subestructura_psi_in 1 1 0 = none :=
  c5_k_domain 1 1 0 le_rfl

/-- The specific 10-pass loop of the source, from the initial guess 7.0. -/
theorem paso_espesor_diez (nuevo espesor : ℝ) :
    paso_espesor nuevo 10 espesor = nuevo :=
  paso_espesor_eq nuevo 9 espesor

/-- C3: the 10-repetition loop of `calcular_espesor_losa_rigida` is
equivalent to a single evaluation of the thickness expression, and the loop
result is independent of the initial guess and of the (positive) iteration
count. -/
theorem c3_loop_no_op (ESALs ZR So Sc Cd Ec k delta_PSI nuevo espesor : ℝ) (n : ℕ) :
    calcular_espesor_losa_rigida ESALs ZR So Sc Cd Ec k delta_PSI =
      calcular_espesor_losa_rigida_spec ESALs ZR So Sc Cd Ec k delta_PSI ∧
      paso_espesor nuevo (n + 1) espesor = nuevo := by
  refine ⟨?_, paso_espesor_eq nuevo n espesor⟩
  simp only [calcular_espesor_losa_rigida, calcular_espesor_losa_rigida_spec,
    paso_espesor_diez]

/-- C6: for every ESALs ≤ 0 the thickness solver fails instead of returning
a value, because a base-10 logarithm of a non-positive number is taken. -/
theorem c6_espesor_domain (ESALs ZR So Sc Cd Ec k delta_PSI : ℝ)
    (h : ESALs ≤ 0) :
    calcular_espesor_losa_rigida ESALs ZR So Sc Cd Ec k delta_PSI = none := by
  simp only [calcular_espesor_losa_rigida]
  by_cases h1 : ESALs + 1 ≤ 0
  · rw [if_pos h1]
  · rw [if_neg h1]
    by_cases h2 : k < 0
    · rw [if_pos h2]
    · rw [if_neg h2]
      by_cases h3 : k = 0
      · rw [if_pos h3]
      · rw [if_neg h3, if_pos h]

/-- Witness for C6 at ESALs = 0 (remaining arguments as in scenario 1). -/
theorem c6_espesor_domain_witness :
    calcular_espesor_losa_rigida 0 (-1.645) 0.39 650 1 4000000 13054 2 = none :=
  c6_espesor_domain 0 (-1.645) 0.39 650 1 4000000 13054 2 le_rfl

/-- C9: when the parsed input is missing the `"Subgrade"` key (or its nested
`"CBR"` key) while the keys read before it are present, the driver stops
with a missing-key error naming `Subgrade` (resp. `CBR`); no calculation
stage runs and no result is produced. -/
theorem c9_clave_faltante (datos : DatosEntrada) (t : TrafficData)
    (c : ConcreteData) (E sc ec : ℝ) (ht : datos.Traffic = some t)
    (hE : t.ESALs = some E) (hc : datos.Concrete = some c)
    (hsc : c.FlexuralStrength = some sc) (hec : c.ModulusOfElasticity = some ec) :
    (datos.Subgrade = none →
      main datos = Except.error (ErrorPrincipal.claveFaltante "Subgrade")) ∧
      ∀ s : SubgradeData, datos.Subgrade = some s → s.CBR = none →
        main datos = Except.error (ErrorPrincipal.claveFaltante "CBR") := by
  constructor
  · intro hs
    simp [main, obtener, ht, hE, hc, hsc, hec, hs, Bind.bind, Except.bind,
      Except.instMonad]
  · intro s hs hcbr
    simp [main, obtener, ht, hE, hc, hsc, hec, hs, hcbr, Bind.bind, Except.bind,
      Except.instMonad]

/-- Witness for C9 on a concrete input whose `"Subgrade"` key is absent. -/
theorem c9_clave_faltante_witness :
    main datosSinSubgrade = Except.error (ErrorPrincipal.claveFaltante "Subgrade") :=
  (c9_clave_faltante datosSinSubgrade { ESALs := some 1000000 }
    { FlexuralStrength := some 650, ModulusOfElasticity := some 4000000 }
    1000000 650 4000000 rfl rfl rfl rfl rfl).1 rfl

/-- C10: the driver feeds the already-rounded MRSG into the k-value
calculator, so for every valid input the composite k-value is the doubly
rounded `round2 (round2 (1945 * CBR ^ 0.684) / 10 + RM / sqrt LT)`: the
result depends on CBR only through the 2-decimal-rounded MRSG. -/
theorem c10_double_rounding (CBR resilient_modulus_base espesor_base : ℝ)
    (h1 : 0 < CBR) (h2 : 0 < espesor_base) :
    pipeline_k_total CBR resilient_modulus_base espesor_base =
      some (round2 (round2 (1945 * CBR ^ (0.684 : ℝ)) / 10 +
        resilient_modulus_base / Real.sqrt espesor_base)) := by
  unfold pipeline_k_total
  rw [mrsg_of_nonneg CBR h1.le]
  exact k_of_pos _ _ _ h2

/-- Witness for C10 at (1, 1, 1). -/
theorem c10_double_rounding_witness :
    pipeline_k_total 1 1 1 =
      some (round2 (round2 (1945 * (1 : ℝ) ^ (0.684 : ℝ)) / 10 + 1 / Real.sqrt 1)) :=
  c10_double_rounding 1 1 1 (by norm_num) (by norm_num)

/-- C7 counterexample: at CBR = 8 the subgrade stage does not produce the
claimed 7739.12: `round2 (1945 * 8 ^ 0.684) = 8065.53`, since
`8 ^ 0.684 = 4.14680440…`. -/
theorem c7_counterexample : calcular_mrsg_subgrade 8 ≠ some 7739.12 := by
  obtain ⟨hb1, hb2⟩ := ocho_rpow_bounds
  have h8 : calcular_mrsg_subgrade 8 = some (round2 (1945 * (8 : ℝ) ^ (0.684 : ℝ))) :=
    mrsg_of_nonneg 8 (by norm_num)
  have hr : round2 (1945 * (8 : ℝ) ^ (0.684 : ℝ)) = ((806553 : ℤ) : ℝ) / 100 := by
    apply round2_eq_of
    · push_cast
      linarith
    · push_cast
      linarith
  rw [h8, hr]
  simp only [ne_eq, Option.some.injEq]
  norm_num

/-- C7 amended: on the scenario-1 input the pipeline produces MRSG = 8065.53,
prints k_subgrade = 806.55 and k_base = 12247.45, and returns
k_total = 13054.00.  (Of the values claimed in the spec only
k_base = 12247.45 is correct; MRSG, k_subgrade and k_total are 8065.53,
806.55 and 13054.00, not 7739.12, 773.91 and 13021.36.) -/
theorem c7_amended :
    calcular_mrsg_subgrade 8 = some 8065.53 ∧
      round2 ((8065.53 : ℝ) / 10) = 806.55 ∧
      round2 (30000 / (6 : ℝ) ^ (0.5 : ℝ)) = 12247.45 ∧
      calcular_k_subestructura_psi_in 8065.53 30000 6 = some 13054 := by
  obtain ⟨hb1, hb2⟩ := ocho_rpow_bounds
  obtain ⟨hs1, hs2⟩ := sqrt_six_bounds
  have hspos : (0 : ℝ) < Real.sqrt 6 := by linarith
  have hub : 30000 / Real.sqrt 6 < 12247.44872 := by
    rw [div_lt_iff₀ hspos]
    linarith
  have hlb : (12247.44871 : ℝ) < 30000 / Real.sqrt 6 := by
    rw [lt_div_iff₀ hspos]
    linarith
  refine ⟨?_, ?_, ?_, ?_⟩
  · rw [mrsg_of_nonneg 8 (by norm_num)]
    have hr : round2 (1945 * (8 : ℝ) ^ (0.684 : ℝ)) = ((806553 : ℤ) : ℝ) / 100 := by
      apply round2_eq_of
      · push_cast
        linarith
      · push_cast
        linarith
    rw [hr]
    norm_num
  · have hr : round2 ((8065.53 : ℝ) / 10) = ((80655 : ℤ) : ℝ) / 100 := by
      apply round2_eq_of
      · push_cast
        norm_num
      · push_cast
        norm_num
    rw [hr]
    norm_num
  · have h6 : ((6 : ℝ) ^ (0.5 : ℝ)) = Real.sqrt 6 := by
      rw [Real.sqrt_eq_rpow]
      norm_num
    rw [h6]
    have hr : round2 (30000 / Real.sqrt 6) = ((1224745 : ℤ) : ℝ) / 100 := by
      apply round2_eq_of
      · push_cast
        linarith
      · push_cast
        linarith
    rw [hr]
    norm_num
  · rw [k_of_pos 8065.53 30000 6 (by norm_num)]
    have hr : round2 ((8065.53 : ℝ) / 10 + 30000 / Real.sqrt 6) =
        ((1305400 : ℤ) : ℝ) / 100 := by
      apply round2_eq_of
      · push_cast
        linarith
      · push_cast
        linarith
    rw [hr]
    norm_num

/-- C8 counterexample: rounding to 2 decimals defeats strict monotonicity:
1 < 1.000001 yet both inputs give the same output 1945.00. -/
theorem c8_counterexample :
    (1 : ℝ) < 1.000001 ∧
      calcular_mrsg_subgrade 1 = calcular_mrsg_subgrade 1.000001 := by
  refine ⟨by norm_num, ?_⟩
  have ha : (0 : ℝ) ≤ 1.000001 := by norm_num
  have hy1 : (1 : ℝ) ≤ (1.000001 : ℝ) ^ (0.684 : ℝ) := by
    calc (1 : ℝ) = (1 : ℝ) ^ (0.684 : ℝ) := (Real.one_rpow _).symm
    _ ≤ (1.000001 : ℝ) ^ (0.684 : ℝ) :=
      Real.rpow_le_rpow (by norm_num) (by norm_num) (by norm_num)
  have key : ((1.000001 : ℝ) ^ (0.684 : ℝ)) ^ (250 : ℕ) =
      (1.000001 : ℝ) ^ (171 : ℕ) := by
    rw [← Real.rpow_natCast ((1.000001 : ℝ) ^ (0.684 : ℝ)) 250, ← Real.rpow_mul ha,
      ← Real.rpow_natCast (1.000001 : ℝ) 171]
    congr 1
    norm_num
  have hy2 : (1.000001 : ℝ) ^ (0.684 : ℝ) < 1.0000007 := by
    apply lt_of_pow_lt_pow_left₀ 250 (by norm_num : (0 : ℝ) ≤ (1.0000007 : ℝ))
    rw [key]
    norm_num
  rw [mrsg_of_nonneg 1 (by norm_num), mrsg_of_nonneg 1.000001 ha]
  have h1 : round2 (1945 * (1 : ℝ) ^ (0.684 : ℝ)) = ((194500 : ℤ) : ℝ) / 100 := by
    rw [Real.one_rpow]
    apply round2_eq_of
    · push_cast
      norm_num
    · push_cast
      norm_num
  have h2 : round2 (1945 * (1.000001 : ℝ) ^ (0.684 : ℝ)) = ((194500 : ℤ) : ℝ) / 100 := by
    apply round2_eq_of
    · push_cast
      linarith
    · push_cast
      linarith
  rw [h1, h2]

/-- C8 amended: `calcular_mrsg_subgrade` is monotone in CBR in the non-strict
sense: for 0 < CBR1 ≤ CBR2, the returned value at CBR1 is at most the value
at CBR2 (the 2-decimal rounding makes equal outputs at distinct inputs
possible, so the increase is not strict). -/
theorem c8_amended (CBR1 CBR2 y1 y2 : ℝ) (h0 : 0 < CBR1) (h12 : CBR1 ≤ CBR2)
    (hy1 : calcular_mrsg_subgrade CBR1 = some y1)
    (hy2 : calcular_mrsg_subgrade CBR2 = some y2) : y1 ≤ y2 := by
  rw [mrsg_of_nonneg CBR1 h0.le] at hy1
  rw [mrsg_of_nonneg CBR2 (le_trans h0.le h12)] at hy2
  simp only [Option.some.injEq] at hy1 hy2
  subst hy1
  subst hy2
  have hx : CBR1 ^ (0.684 : ℝ) ≤ CBR2 ^ (0.684 : ℝ) :=
    Real.rpow_le_rpow h0.le h12 (by norm_num)
  exact round2_mono (by linarith)

/-- Witness for C8 amended at CBR1 = CBR2 = 1, where the output is 1945. -/
theorem c8_amended_witness : (1945 : ℝ) ≤ 1945 := by
  have h1 : calcular_mrsg_subgrade 1 = some 1945 := by
    rw [mrsg_of_nonneg 1 (by norm_num), Real.one_rpow]
    have hr : round2 ((1945 : ℝ) * 1) = ((194500 : ℤ) : ℝ) / 100 := by
      apply round2_eq_of
      · push_cast
        norm_num
      · push_cast
        norm_num
    rw [hr]
    norm_num
  exact c8_amended 1 1 1945 1945 (by norm_num) le_rfl h1 h1
